import Mathlib

/-!
Shallow embedding of the creator recommendation engine of the Caskayd backend
(`backend/recommendation_service.py`, the `/recommendations` endpoint of
`backend/main.py`) over the data model of `backend/models.py`.

Conventions of the embedding:
* Timestamps (`DateTime` columns, `datetime.utcnow()`) are modelled as natural
  numbers counting minutes, so the 30-minute TTL is the literal `+ 30`.
* SQL tables are lists of rows in physical (insertion) order.  A `SELECT`
  without an `ORDER BY` yields rows in that order, and SQLAlchemy's
  `Result.scalar()` returns the first row of the result, so an unordered
  lookup is modelled by `List.find?` over the table.
* `ORDER BY` is modelled as a stable sort (`List.insertionSort`) by the
  ordering keys.
* The Python dict holding the request filters is modelled as an association
  list in insertion order with distinct keys; Python truthiness of the stored
  values is modelled explicitly by `FilterValue.truthy`.
* Float columns (`engagement_rate`) and `func.similarity` are modelled as
  rationals: the engine only compares them and takes maxima.
* `func.similarity` (pg_trgm) and `hashlib.md5` have no bearing on the control
  flow; they are kept abstract as the fields of `SqlEnv`.
* The cache stores the creator id list as a JSON text column; since
  `json.loads ∘ json.dumps` is the identity on lists of ints, the entry keeps
  the decoded list directly.
-/

namespace Caskayd

/-! ### Data model (`backend/models.py`), restricted to the columns the engine reads -/

/-- Row of `instagram_creator_socials` (`InstagramCreatorSocial`). -/
structure InstagramCreatorSocial where
  user_id : Nat
  platform : String
  instagram_username : Option String
  followers_count : Option Int
  reach_7d : Option Int
  engagement_rate : Option Rat
deriving DecidableEq

/-- Row of `users_creators` (`UserCreator`); only the columns the engine reads. -/
structure UserCreator where
  id : Nat
  name : String
  bio : String
  email : String
  created_at : Nat
deriving DecidableEq

/-- Row of `industries` (`Industry`) with its `industry_niches` links flattened
to the ids of its niches, exactly what `_generate_recommendations` reads. -/
structure Industry where
  id : Nat
  niches : List Nat
deriving DecidableEq

/-- Row of `users_businesses` (`UserBusiness`) with its `business_industries`
links resolved. -/
structure UserBusiness where
  id : Nat
  industries : List Industry
deriving DecidableEq

/-- Row of `niches` (`Niche`). -/
structure Niche where
  id : Nat
  name : String
deriving DecidableEq

/-- Row of `business_creator_interactions` (`BusinessCreatorInteraction`). -/
structure BusinessCreatorInteraction where
  business_id : Nat
  creator_id : Nat
  interaction_type : String
  viewed_at : Nat
deriving DecidableEq

/-- Row of `recommendation_cache` (`RecommendationCache`). -/
structure RecommendationCache where
  business_id : Nat
  cache_key : String
  creator_ids : List Nat
  created_at : Nat
  expires_at : Nat
  last_accessed : Nat
deriving DecidableEq

/-- The tables the engine reads but never writes through the cache path:
creators, businesses, reference data and the viewed-interaction log. -/
structure DbData where
  businesses : List UserBusiness
  creators : List UserCreator
  niches : List Niche
  creator_niches : List (Nat × Nat)
  socials : List InstagramCreatorSocial
  interactions : List BusinessCreatorInteraction
deriving DecidableEq

/-- The whole store seen by one request: the data tables plus the
`recommendation_cache` table. -/
structure Db where
  data : DbData
  cache : List RecommendationCache
deriving DecidableEq

/-! ### Python filter dict and the cache fingerprint -/

/-- A value stored in the `filters` dict built by the `/recommendations`
endpoint: an int, a float, a string, a list of ints or a list of strings. -/
inductive FilterValue where
  | int (i : Int)
  | num (r : Rat)
  | str (s : String)
  | intList (l : List Int)
  | strList (l : List String)
deriving DecidableEq

/-- Python truthiness of a filter value (`if filters['k']:`). -/
def FilterValue.truthy : FilterValue → Bool
  | .int i => i != 0
  | .num r => r != 0
  | .str s => s != ""
  | .intList l => !l.isEmpty
  | .strList l => !l.isEmpty

/-- The `filters` dict: key/value pairs in insertion order, keys distinct. -/
abbrev Filters := List (String × FilterValue)

/-- Python dict lookup `filters['k']` (`'k' in filters` = `isSome`). -/
def dictGet? (fs : Filters) (k : String) : Option FilterValue :=
  (fs.find? (fun p => p.1 == k)).map (fun p => p.2)

/-- `json.dumps` rendering of a string value.  Escaping of special characters
is not modelled; no value in this development needs an escape. -/
def jsonString (s : String) : String := "\"" ++ s ++ "\""

/-- Decimal expansion used to render a float the way `repr` does; `fuel`
bounds the number of digits. -/
def decimalDigits : Nat → Nat → Nat → String
  | 0, _, _ => ""
  | _, 0, _ => ""
  | fuel + 1, rem, den =>
      toString (rem * 10 / den) ++ decimalDigits fuel (rem * 10 % den) den

/-- Python `repr` of a float, for the exactly-representable decimal values the
endpoint passes around (e.g. `2.0`, `3.25`). -/
def pyFloatRepr (r : Rat) : String :=
  let sign := if r < 0 then "-" else ""
  let n := r.num.natAbs
  if n % r.den == 0 then sign ++ toString (n / r.den) ++ ".0"
  else sign ++ toString (n / r.den) ++ "." ++ decimalDigits 20 (n % r.den) r.den

/-- `json.dumps` rendering of one filter value (default separators). -/
def FilterValue.toJson : FilterValue → String
  | .int i => toString i
  | .num r => pyFloatRepr r
  | .str s => jsonString s
  | .intList l => "[" ++ String.intercalate ", " (l.map toString) ++ "]"
  | .strList l => "[" ++ String.intercalate ", " (l.map jsonString) ++ "]"

/-- `sort_keys=True`: the dict is serialized in key order (stable sort). -/
def sortFilterKeys (fs : Filters) : Filters :=
  List.insertionSort (fun a b => a.1 ≤ b.1) fs

/-- The string md5-hashed by `_create_cache_key`:
`json.dumps({'search_query': search_query or '', 'filters': filters}, sort_keys=True)`.
The outer keys are serialized sorted (`"filters" < "search_query"`), and
`search_query or ''` maps both `None` and `''` to `''`. -/
def cacheString (search_query : Option String) (filters : Filters) : String :=
  "\x7b\"filters\": \x7b" ++
    String.intercalate ", "
      ((sortFilterKeys filters).map (fun p => jsonString p.1 ++ ": " ++ p.2.toJson)) ++
    "\x7d, \"search_query\": " ++ jsonString (search_query.getD "") ++ "\x7d"

/-- The ambient SQL/hash functions the engine calls but never inspects. -/
structure SqlEnv where
  similarity : String → String → Rat
  md5hex : String → String

/-- `RecommendationService._create_cache_key`.  As in the source, the
`business_id` argument is not part of the hashed data (scoping by business
happens in the cache query instead). -/
def create_cache_key (env : SqlEnv) (business_id : Nat) (search_query : Option String)
    (filters : Filters) : String :=
  env.md5hex (cacheString search_query filters)

/-! ### Character-level string primitives

Python's `str.split`, `str.strip` and `str.lower` are modelled by structural
recursion over the character list of the string. -/

/-- `s.split(sep)` on character lists: splitting `""` yields `[""]`, adjacent
separators yield empty fields. -/
def splitChars (sep : Char) : List Char → List (List Char)
  | [] => [[]]
  | c :: rest =>
      let r := splitChars sep rest
      if c == sep then [] :: r
      else
        match r with
        | [] => [[c]]
        | g :: gs => (c :: g) :: gs

/-- The whitespace stripped by Python's `str.strip()` / `int()`. -/
def isPySpace (c : Char) : Bool :=
  c == ' ' || c == '\t' || c == '\n' || c == '\r' || c == '\x0b' || c == '\x0c'

/-- `str.strip()` on character lists. -/
def trimChars (cs : List Char) : List Char :=
  ((cs.dropWhile isPySpace).reverse.dropWhile isPySpace).reverse

/-- `str.strip()`. -/
def pyStrip (s : String) : String := String.mk (trimChars s.data)

/-- ASCII `str.lower()`, all the case folding SQL `ILIKE` needs here. -/
def pyLowerChar (c : Char) : Char :=
  if 'A' ≤ c && c ≤ 'Z' then Char.ofNat (c.toNat + 32) else c

/-- `str.lower()`. -/
def pyLower (s : String) : String := String.mk (s.data.map pyLowerChar)

/-! ### The candidate query of `_generate_recommendations` -/

/-- The query object built by `_generate_recommendations` and refined by
`_apply_filters`: the base join restricted to `relevant_niche_ids`, plus the
optional WHERE predicates the source may add. -/
structure CreatorQuery where
  relevant_niche_ids : List Nat
  search : Option String
  min_followers : Option Int
  max_followers : Option Int
  min_engagement_rate : Option Rat
  niche_ids_filter : Option (List Int)
deriving DecidableEq

/-- `RecommendationService._apply_filters`: each predicate is added only when
its key is present *and* its value is truthy.  The endpoint stores an int
under `min_followers`/`max_followers`, a float under `engagement_rate` and a
list of ints under `niches`, so the embedding matches on those shapes; the
`location` and `socials` keys have no branch in the source and none here. -/
def apply_filters (q : CreatorQuery) (filters : Filters) : CreatorQuery :=
  let q := match dictGet? filters "min_followers" with
    | some (.int i) => if (FilterValue.int i).truthy then { q with min_followers := some i } else q
    | _ => q
  let q := match dictGet? filters "max_followers" with
    | some (.int i) => if (FilterValue.int i).truthy then { q with max_followers := some i } else q
    | _ => q
  let q := match dictGet? filters "engagement_rate" with
    | some (.num r) =>
        if (FilterValue.num r).truthy then { q with min_engagement_rate := some r } else q
    | _ => q
  match dictGet? filters "niches" with
    | some (.intList l) =>
        if (FilterValue.intList l).truthy then { q with niche_ids_filter := some l } else q
    | _ => q

/-- One row of the joined relation
`users_creators JOIN creator_niches LEFT OUTER JOIN instagram_creator_socials`. -/
structure JoinedRow where
  creator : UserCreator
  niche_id : Nat
  social : Option InstagramCreatorSocial
deriving DecidableEq

/-- The social rows a creator contributes to the outer join: one NULL row when
the creator has none. -/
def socialRowsFor (d : DbData) (creator_id : Nat) : List (Option InstagramCreatorSocial) :=
  let ss := d.socials.filter (fun s => s.user_id == creator_id)
  if ss.isEmpty then [none] else ss.map some

/-- The joined relation restricted to the candidate niche set
(`WHERE creator_niches.niche_id IN relevant_niche_ids`). -/
def joinedRows (d : DbData) (relevant : List Nat) : List JoinedRow :=
  d.creators.flatMap (fun c =>
    (d.creator_niches.filter (fun p => p.1 == c.id && relevant.contains p.2)).flatMap (fun p =>
      (socialRowsFor d c.id).map (fun s => { creator := c, niche_id := p.2, social := s })))

/-- SQL `ILIKE '%pat%'`: case-insensitive substring match. -/
def ilikeAnywhere (column pat : String) : Bool :=
  decide ((pyLower pat).data <:+: (pyLower column).data)

/-- The WHERE clauses of the candidate query, evaluated on one joined row.
Comparisons against a NULL social column are not satisfied (SQL three-valued
logic filters those rows out). -/
def rowPasses (q : CreatorQuery) (r : JoinedRow) : Bool :=
  (match q.search with
   | some sq => ilikeAnywhere r.creator.name sq || ilikeAnywhere r.creator.bio sq
   | none => true) &&
  (match q.min_followers with
   | some v =>
       (match r.social with
        | some s => (match s.followers_count with
                     | some f => decide (v ≤ f)
                     | none => false)
        | none => false)
   | none => true) &&
  (match q.max_followers with
   | some v =>
       (match r.social with
        | some s => (match s.followers_count with
                     | some f => decide (f ≤ v)
                     | none => false)
        | none => false)
   | none => true) &&
  (match q.min_engagement_rate with
   | some v =>
       (match r.social with
        | some s => (match s.engagement_rate with
                     | some e => decide (v ≤ e)
                     | none => false)
        | none => false)
   | none => true) &&
  (match q.niche_ids_filter with
   | some l => l.contains (r.niche_id : Int)
   | none => true)

/-- One output row of the grouped query: `GROUP BY UserCreator.id` with
`count(creator_niches.niche_id)`, `max(followers_count)`,
`max(engagement_rate)`. -/
structure ScoredRow where
  creator : UserCreator
  niche_match_count : Nat
  followers_count : Option Int
  engagement_rate : Option Rat
deriving DecidableEq

/-- Grouping of the filtered join by creator id.  `count` counts the group's
rows (`niche_id` is never NULL); `max` is taken over the non-NULL values and
is NULL when all are. -/
def groupByCreator (rows : List JoinedRow) : List ScoredRow :=
  ((rows.map (fun r => r.creator.id)).eraseDups).filterMap (fun i =>
    match rows.filter (fun r => r.creator.id == i) with
    | [] => none
    | r :: rs =>
        some { creator := r.creator,
               niche_match_count := (r :: rs).length,
               followers_count :=
                 ((r :: rs).filterMap (fun x => x.social.bind (fun s => s.followers_count))).max?,
               engagement_rate :=
                 ((r :: rs).filterMap (fun x => x.social.bind (fun s => s.engagement_rate))).max? })

/-- The two trailing ORDER BY keys shared by both branches:
`niche_match_count DESC, UserCreator.created_at DESC`.  `orderLe a b` reads
"`a` may be placed no later than `b`". -/
def nicheCreatedLe (a b : ScoredRow) : Bool :=
  decide (b.niche_match_count < a.niche_match_count) ||
    (decide (b.niche_match_count = a.niche_match_count) &&
      decide (b.creator.created_at ≤ a.creator.created_at))

/-- The full ORDER BY of the candidate query: with a search query,
`similarity(name, search) DESC` comes first. -/
def orderLe (env : SqlEnv) (q : CreatorQuery) (a b : ScoredRow) : Bool :=
  match q.search with
  | some sq =>
      decide (env.similarity b.creator.name sq < env.similarity a.creator.name sq) ||
        (decide (env.similarity b.creator.name sq = env.similarity a.creator.name sq) &&
          nicheCreatedLe a b)
  | none => nicheCreatedLe a b

/-- Execution of the candidate query: join, WHERE, GROUP BY, ORDER BY. -/
def execute_query (env : SqlEnv) (d : DbData) (q : CreatorQuery) : List ScoredRow :=
  List.insertionSort (fun a b => orderLe env q a b = true)
    (groupByCreator ((joinedRows d q.relevant_niche_ids).filter (rowPasses q)))

/-! ### `RecommendationService` -/

/-- The constants set in `RecommendationService.__init__`. -/
structure RecommendationService where
  cache_duration_minutes : Nat
  batch_size : Nat
deriving DecidableEq

/-- The module-level instance (`recommendation_service = RecommendationService()`). -/
def recommendation_service : RecommendationService :=
  { cache_duration_minutes := 30, batch_size := 50 }

/-- Python truthiness of the optional search string (`if search_query:`). -/
def pyTruthyOptStr : Option String → Bool
  | some s => s != ""
  | none => false

/-- The `SELECT DISTINCT creator_id FROM business_creator_interactions WHERE
business_id = …` read of `_generate_recommendations`. -/
def viewed_creator_ids (business_id : Nat) (d : DbData) : List Nat :=
  ((d.interactions.filter (fun i => i.business_id == business_id)).map
    (fun i => i.creator_id)).eraseDups

/-- Assembly of the candidate query in `_generate_recommendations`: the base
query, the search predicate when the search string is truthy, then
`_apply_filters` when the filter dict is truthy (non-empty). -/
def buildQuery (relevant : List Nat) (search_query : Option String) (filters : Filters) :
    CreatorQuery :=
  let q : CreatorQuery :=
    { relevant_niche_ids := relevant, search := none, min_followers := none,
      max_followers := none, min_engagement_rate := none, niche_ids_filter := none }
  let q := if pyTruthyOptStr search_query then { q with search := search_query } else q
  if filters.isEmpty then q else apply_filters q filters

/-- `RecommendationService._generate_recommendations`: business lookup,
industry→niche flattening, the scored query, then the viewed/unviewed split of
the ordered ids (the loop appends each id to one of two lists, preserving the
query order in each). -/
def generate_recommendations (env : SqlEnv) (business_id : Nat) (d : DbData)
    (search_query : Option String) (filters : Filters) : List Nat :=
  match d.businesses.find? (fun b => b.id == business_id) with
  | none => []
  | some business =>
    if business.industries.isEmpty then [] else
      let relevant_niche_ids := business.industries.flatMap (fun ind => ind.niches)
      let viewed := viewed_creator_ids business_id d
      let rows := execute_query env d (buildQuery relevant_niche_ids search_query filters)
      let ids := rows.map (fun r => r.creator.id)
      let fresh_creator_ids := ids.filter (fun i => !(viewed.contains i))
      let viewed_creator_ids_ordered := ids.filter (fun i => viewed.contains i)
      fresh_creator_ids ++ viewed_creator_ids_ordered

/-- The full scored ordering produced by the candidate query of
`_generate_recommendations`, before the viewed/unviewed split: the ids of the
ordered result rows (empty when the business is missing or has no
industries). -/
def scored_creator_ids (env : SqlEnv) (business_id : Nat) (d : DbData)
    (search_query : Option String) (filters : Filters) : List Nat :=
  match d.businesses.find? (fun b => b.id == business_id) with
  | none => []
  | some business =>
    if business.industries.isEmpty then [] else
      (execute_query env d
        (buildQuery (business.industries.flatMap (fun ind => ind.niches))
          search_query filters)).map (fun r => r.creator.id)

/-! ### Hydration (`_get_creators_by_ids`) -/

/-- The response shape built by `_get_creators_by_ids`. -/
structure CreatorSummary where
  id : Nat
  name : String
  bio : String
  email : String
  followers_count : Option Int
  engagement_rate : String
  instagram_username : Option String
  reach_7d : Option Int
  niches : List (Nat × String)
  created_at : Option Nat
deriving DecidableEq

/-- `creator.niches` hydrated with names, in `creator_niches` table order. -/
def creatorNichePairs (d : DbData) (creator_id : Nat) : List (Nat × String) :=
  (d.creator_niches.filter (fun p => p.1 == creator_id)).filterMap (fun p =>
    (d.niches.find? (fun n => n.id == p.2)).map (fun n => (n.id, n.name)))

/-- The per-creator dict built inside `_get_creators_by_ids`.  The instagram
social is the first linked social with `platform == "instagram"`;
`followers_count` is `0` only when there is *no* instagram row (a NULL column
stays NULL), and the engagement string falls back to `"N/A"` when the row is
missing or the rate is falsy. -/
def summarize (d : DbData) (c : UserCreator) : CreatorSummary :=
  let socials := d.socials.filter (fun s => s.user_id == c.id)
  let instagram_social := socials.find? (fun s => s.platform == "instagram")
  { id := c.id, name := c.name, bio := c.bio, email := c.email,
    followers_count := match instagram_social with
      | some s => s.followers_count
      | none => some 0,
    engagement_rate := match instagram_social with
      | some s => match s.engagement_rate with
        | some e => if e != 0 then pyFloatRepr e ++ "%" else "N/A"
        | none => "N/A"
      | none => "N/A",
    instagram_username := instagram_social.bind (fun s => s.instagram_username),
    reach_7d := instagram_social.bind (fun s => s.reach_7d),
    niches := creatorNichePairs d c.id,
    created_at := some c.created_at }

/-- `RecommendationService._get_creators_by_ids`: batch lookup re-projected
into the id-list order.  `creators_dict` keeps, per id, the last row returned
(later dict assignments win), and ids absent from the table are skipped. -/
def get_creators_by_ids (creator_ids : List Nat) (d : DbData) : List CreatorSummary :=
  if creator_ids.isEmpty then [] else
    creator_ids.filterMap (fun cid =>
      ((d.creators.filter (fun c => c.id == cid)).getLast?).map (summarize d))

/-! ### Cache read/write, viewed marking, invalidation -/

/-- The WHERE clause of `_get_from_cache`: same business, same key, not yet
expired (`expires_at > utcnow()`). -/
def liveEntryFor (business_id : Nat) (cache_key : String) (now : Nat)
    (e : RecommendationCache) : Bool :=
  e.business_id == business_id && e.cache_key == cache_key && decide (now < e.expires_at)

/-- Update of the single ORM row returned by `scalar()`: the first match. -/
def updateFirst (p : RecommendationCache → Bool) (f : RecommendationCache → RecommendationCache) :
    List RecommendationCache → List RecommendationCache
  | [] => []
  | e :: es => if p e then f e :: es else e :: updateFirst p f es

/-- `RecommendationService._get_from_cache`.  The SELECT has no ORDER BY and
`Result.scalar()` yields the first row in table order; on a hit that row's
`last_accessed` is bumped to now. -/
def get_from_cache (business_id : Nat) (cache_key : String) (now : Nat) (db : Db) :
    Option (List Nat) × Db :=
  match db.cache.find? (liveEntryFor business_id cache_key now) with
  | none => (none, db)
  | some e =>
      (some e.creator_ids,
       { db with cache := updateFirst (liveEntryFor business_id cache_key now)
                            (fun x => { x with last_accessed := now }) db.cache })

/-- `ORDER BY created_at DESC` for the pruning SELECT. -/
def created_at_desc (a b : RecommendationCache) : Bool :=
  decide (b.created_at ≤ a.created_at)

/-- The cleanup step of `_cache_recommendations`: delete every entry of the
business beyond the 10 most recently created (`ORDER BY created_at DESC
OFFSET 10`). -/
def pruneOld (business_id : Nat) (cache : List RecommendationCache) :
    List RecommendationCache :=
  let old_entries :=
    (List.insertionSort (fun a b => created_at_desc a b = true)
      (cache.filter (fun e => e.business_id == business_id))).drop 10
  cache.filter (fun e => !(old_entries.contains e))

/-- The fresh row inserted by `_cache_recommendations`: `created_at` defaults
to now, `expires_at` is 30 minutes (`cache_duration_minutes`) later. -/
def newCacheEntry (svc : RecommendationService) (business_id : Nat) (cache_key : String)
    (creator_ids : List Nat) (now : Nat) : RecommendationCache :=
  { business_id := business_id, cache_key := cache_key, creator_ids := creator_ids,
    created_at := now, expires_at := now + svc.cache_duration_minutes, last_accessed := now }

/-- `RecommendationService._cache_recommendations`: prune, then insert. -/
def cache_recommendations (svc : RecommendationService) (business_id : Nat) (cache_key : String)
    (creator_ids : List Nat) (now : Nat) (db : Db) : Db :=
  { db with cache := pruneOld business_id db.cache ++
      [newCacheEntry svc business_id cache_key creator_ids now] }

/-- `RecommendationService.mark_creator_viewed`: look for an existing
interaction of the pair; only when none exists is a `'viewed'` row added. -/
def mark_creator_viewed (business_id creator_id : Nat) (now : Nat) (db : Db) : Db :=
  match db.data.interactions.find? (fun i =>
      i.business_id == business_id && i.creator_id == creator_id) with
  | some _ => db
  | none =>
      { db with data := { db.data with interactions := db.data.interactions ++
          [{ business_id := business_id, creator_id := creator_id,
             interaction_type := "viewed", viewed_at := now }] } }

/-- `RecommendationService.invalidate_cache`: delete every cache entry of the
business. -/
def invalidate_cache (business_id : Nat) (db : Db) : Db :=
  { db with cache := db.cache.filter (fun e => !(e.business_id == business_id)) }

/-- `RecommendationService.get_recommendations`: compute the fingerprint, try
the cache, and only a hit holding a *non-empty* id list (`if cached_ids:` —
`None` and `[]` are both falsy) is served from cache; otherwise generate,
write back (with pruning) and page the fresh ordering.  Python's
`lst[offset:offset+limit]` is `(lst.drop offset).take limit`. -/
def get_recommendations (env : SqlEnv) (svc : RecommendationService) (business_id : Nat)
    (db : Db) (now : Nat) (search_query : Option String) (filters : Filters)
    (offset limit : Nat) : List CreatorSummary × Db :=
  let cache_key := create_cache_key env business_id search_query filters
  let fetched := get_from_cache business_id cache_key now db
  match fetched.1 with
  | some (c :: cs) =>
      (get_creators_by_ids (((c :: cs).drop offset).take limit) fetched.2.data, fetched.2)
  | _ =>
      let creator_ids := generate_recommendations env business_id fetched.2.data search_query filters
      let db2 := cache_recommendations svc business_id cache_key creator_ids now fetched.2
      (get_creators_by_ids ((creator_ids.drop offset).take limit) db2.data, db2)

/-! ### The `/recommendations` endpoint of `backend/main.py` -/

/-- Helper of `pyInt?`: digits possibly separated by single underscores,
starting and ending on a digit.  The flag records whether the previously
consumed character was a digit. -/
def pyIntDigits : Bool → List Char → Bool
  | prev, [] => prev
  | prev, c :: rest =>
      if c.isDigit then pyIntDigits true rest
      else if c == '_' then prev && pyIntDigits false rest
      else false

/-- Numeric value of a digit string, underscores skipped. -/
def digitsToNat (cs : List Char) : Nat :=
  cs.foldl (fun a c => if c.isDigit then a * 10 + (c.toNat - '0'.toNat) else a) 0

/-- Python `int(str)`: optional surrounding whitespace, optional sign, decimal
digits possibly separated by single underscores; anything else raises
`ValueError` (`none` here). -/
def pyInt? (s : String) : Option Int :=
  let cs := trimChars s.data
  let signed : Int × List Char :=
    match cs with
    | '-' :: rest => (-1, rest)
    | '+' :: rest => (1, rest)
    | _ => (1, cs)
  if pyIntDigits false signed.2 then
    some (signed.1 * (digitsToNat (signed.2.filter (fun c => c != '_')) : Int))
  else none

/-- `[int(niche_id.strip()) for niche_id in niches.split(',')]`: `none` when
any token raises `ValueError`. -/
def parseNicheIds? (niches : String) : Option (List Int) :=
  ((splitChars ',' niches.data).map (fun cs => String.mk cs)).mapM
    (fun t => pyInt? (pyStrip t))

/-- The body of the `try:` block of `get_creator_recommendations` in
`main.py`, from the point where the authenticated business is resolved
(authentication itself is outside the engine's scope).  Query params are added
to the dict in source order; an unparseable `niches` list raises
`HTTPException(400)` (modelled as `Except.error 400` with the store untouched)
before the recommendation service is ever invoked. -/
def get_creator_recommendations_try (env : SqlEnv) (svc : RecommendationService)
    (business_id : Nat) (db : Db) (now : Nat)
    (search : Option String) (location : Option String)
    (min_followers max_followers : Option Int) (engagement_rate : Option Rat)
    (niches : Option String) (socials : Option String)
    (offset limit : Nat) : Except Nat (List CreatorSummary) × Db :=
  let filters0 : Filters := []
  let filters1 := match location with
    | some l => if l != "" then filters0 ++ [("location", FilterValue.str l)] else filters0
    | none => filters0
  let filters2 := match min_followers with
    | some v => filters1 ++ [("min_followers", FilterValue.int v)]
    | none => filters1
  let filters3 := match max_followers with
    | some v => filters2 ++ [("max_followers", FilterValue.int v)]
    | none => filters2
  let filters4 := match engagement_rate with
    | some v => filters3 ++ [("engagement_rate", FilterValue.num v)]
    | none => filters3
  let run := fun (fs : Filters) =>
    let fs2 := match socials with
      | some s =>
          if s != "" then
            fs ++ [("socials", FilterValue.strList
              ((splitChars ',' s.data).map (fun cs => pyLower (pyStrip (String.mk cs)))))]
          else fs
      | none => fs
    let out := get_recommendations env svc business_id db now search fs2 offset limit
    (Except.ok out.1, out.2)
  match niches with
  | some s =>
      if s != "" then
        match parseNicheIds? s with
        | none => (Except.error 400, db)
        | some ids => run (filters4 ++ [("niches", FilterValue.intList ids)])
      else run filters4
  | none => run filters4

deriving instance DecidableEq for Except

/-- `get_creator_recommendations` in `main.py`: the `try:` body above runs
under the handler's closing clauses
`except JWTError: … 401` / `except Exception as e: raise
HTTPException(status_code=500, detail=f"Internal server error: {str e}")`.
FastAPI's `HTTPException` subclasses `Exception` (and not `JWTError`), so the
`HTTPException(400)` raised inside the `try:` for a malformed `niches` list is
caught by the catch-all and re-surfaced as a 500 — the error code the caller
actually receives.  (`JWTError` belongs to the out-of-scope auth steps.) -/
def get_creator_recommendations (env : SqlEnv) (svc : RecommendationService)
    (business_id : Nat) (db : Db) (now : Nat)
    (search : Option String) (location : Option String)
    (min_followers max_followers : Option Int) (engagement_rate : Option Rat)
    (niches : Option String) (socials : Option String)
    (offset limit : Nat) : Except Nat (List CreatorSummary) × Db :=
  let r := get_creator_recommendations_try env svc business_id db now search location
    min_followers max_followers engagement_rate niches socials offset limit
  match r.1 with
  | Except.error _ => (Except.error 500, r.2)
  | Except.ok v => (Except.ok v, r.2)

/-! ### Concrete fixtures for witnesses and counterexamples -/

/-- A concrete ambient environment: similarity constantly `0` and the identity
in place of the md5 hex digest (the engine never inspects either). -/
def testEnv : SqlEnv := { similarity := fun _ _ => 0, md5hex := fun s => s }

/-- Two creators in business 1's niche pool: creator 1 matches two niches,
creator 2 matches three and has already been viewed by the business. -/
def twoCreatorData : DbData :=
  { businesses := [{ id := 1, industries := [{ id := 1, niches := [1, 2, 3] }] }],
    creators := [
      { id := 1, name := "A", bio := "bio a", email := "a", created_at := 10 },
      { id := 2, name := "B", bio := "bio b", email := "b", created_at := 20 }],
    niches := [{ id := 1, name := "n1" }, { id := 2, name := "n2" }, { id := 3, name := "n3" }],
    creator_niches := [(1, 1), (1, 2), (2, 1), (2, 2), (2, 3)],
    socials := [],
    interactions := [{ business_id := 1, creator_id := 2, interaction_type := "viewed",
                       viewed_at := 0 }] }

/-- A business with no industries: every fresh generation is empty. -/
def noIndustryData : DbData :=
  { businesses := [{ id := 1, industries := [] }], creators := [], niches := [],
    creator_niches := [], socials := [], interactions := [] }

/-- Fifteen consecutive `get_recommendations` calls for business 1 at minutes
0..14, with fifteen distinct search strings and hence fifteen distinct cache
fingerprints: every call misses and writes a fresh cache entry. -/
def fifteenWritesRun : Db :=
  (List.range 15).foldl
    (fun db i => (get_recommendations testEnv recommendation_service 1 db i
        (some ("q" ++ toString i)) [] 0 5).2)
    { data := noIndustryData, cache := [] }

/-- A cache table holding two live entries for the same `(business, key)` pair
(the tolerated result of a write race): the older one, first in table order,
stores `[1]`; the newer one stores `[2]`. -/
def duplicateEntryDb : Db :=
  { data := { businesses := [], creators := [], niches := [], creator_niches := [],
              socials := [], interactions := [] },
    cache := [
      { business_id := 1, cache_key := "k", creator_ids := [1], created_at := 0,
        expires_at := 40, last_accessed := 0 },
      { business_id := 1, cache_key := "k", creator_ids := [2], created_at := 5,
        expires_at := 45, last_accessed := 5 }] }

/-! ### Helper lemmas about the cache primitives -/

lemma find?_append_left_none {α : Type} {p : α → Bool} {l1 l2 : List α}
    (h : ∀ x ∈ l1, p x = false) : (l1 ++ l2).find? p = l2.find? p := by
  have h0 : l1.find? p = none := List.find?_eq_none.mpr (fun x hx => by simp [h x hx])
  rw [List.find?_append, h0]
  rfl

lemma updateFirst_append_left {p : RecommendationCache → Bool}
    {f : RecommendationCache → RecommendationCache} {l1 l2 : List RecommendationCache}
    (h : ∀ x ∈ l1, p x = false) :
    updateFirst p f (l1 ++ l2) = l1 ++ updateFirst p f l2 := by
  induction l1 with
  | nil => rfl
  | cons e es ih =>
      have he : p e = false := h e (List.mem_cons_self e es)
      simp [updateFirst, he, ih (fun x hx => h x (List.mem_cons_of_mem e hx))]

lemma mem_updateFirst {p : RecommendationCache → Bool}
    {f : RecommendationCache → RecommendationCache} {l : List RecommendationCache}
    {x : RecommendationCache} (hx : x ∈ updateFirst p f l) :
    x ∈ l ∨ ∃ y, y ∈ l ∧ x = f y := by
  induction l with
  | nil => simp [updateFirst] at hx
  | cons e es ih =>
      unfold updateFirst at hx
      by_cases hp : p e = true
      · rw [if_pos hp] at hx
        rcases List.mem_cons.mp hx with h | h
        · exact Or.inr ⟨e, List.mem_cons_self e es, h⟩
        · exact Or.inl (List.mem_cons_of_mem e h)
      · rw [if_neg hp] at hx
        rcases List.mem_cons.mp hx with h | h
        · exact Or.inl (h ▸ List.mem_cons_self e es)
        · rcases ih h with h' | ⟨y, hy, hxy⟩
          · exact Or.inl (List.mem_cons_of_mem e h')
          · exact Or.inr ⟨y, List.mem_cons_of_mem e hy, hxy⟩

lemma liveEntryFor_eq_true_iff {bid : Nat} {k : String} {now : Nat} {e : RecommendationCache} :
    liveEntryFor bid k now e = true ↔
      e.business_id = bid ∧ e.cache_key = k ∧ now < e.expires_at := by
  simp [liveEntryFor, and_assoc]

lemma liveEntryFor_false_of_dead {bid : Nat} {k : String} {t1 now : Nat}
    {e : RecommendationCache}
    (h : e.business_id = bid → e.cache_key = k → e.expires_at ≤ t1) (h2 : t1 ≤ now) :
    liveEntryFor bid k now e = false := by
  have hnot : ¬ liveEntryFor bid k now e = true := by
    rw [liveEntryFor_eq_true_iff]
    rintro ⟨hb, hk, hlt⟩
    exact absurd hlt (not_lt.mpr (le_trans (h hb hk) h2))
  exact Bool.eq_false_iff.mpr hnot

lemma get_from_cache_none {bid : Nat} {k : String} {now : Nat} {db : Db}
    (h : ∀ e ∈ db.cache, liveEntryFor bid k now e = false) :
    get_from_cache bid k now db = (none, db) := by
  unfold get_from_cache
  rw [List.find?_eq_none.mpr (fun e he => by simp [h e he])]

lemma get_from_cache_data (bid : Nat) (k : String) (now : Nat) (db : Db) :
    (get_from_cache bid k now db).2.data = db.data := by
  unfold get_from_cache
  rcases h : db.cache.find? (liveEntryFor bid k now) with _ | e <;> simp [h]

lemma pruneOld_subset {bid : Nat} {cache : List RecommendationCache}
    {x : RecommendationCache} (hx : x ∈ pruneOld bid cache) : x ∈ cache := by
  simp only [pruneOld] at hx
  exact (List.mem_filter.mp hx).1

lemma pruneOld_eq_self {bid : Nat} {cache : List RecommendationCache}
    (h : (cache.filter (fun e => e.business_id == bid)).length ≤ 10) :
    pruneOld bid cache = cache := by
  have hlen : (List.insertionSort (fun a b => created_at_desc a b = true)
      (cache.filter (fun e => e.business_id == bid))).length ≤ 10 := by
    rw [(List.perm_insertionSort _ _).length_eq]
    exact h
  simp only [pruneOld]
  rw [List.drop_eq_nil_of_le hlen]
  exact List.filter_eq_self.mpr (fun a _ => rfl)

lemma newCacheEntry_live (svc : RecommendationService) (bid : Nat) (k : String)
    (ids : List Nat) {t1 t : Nat} (h2 : t < t1 + svc.cache_duration_minutes) :
    liveEntryFor bid k t (newCacheEntry svc bid k ids t1) = true := by
  rw [liveEntryFor_eq_true_iff]
  exact ⟨rfl, rfl, h2⟩

lemma get_from_cache_after_write (svc : RecommendationService) {bid : Nat} {k : String}
    (ids : List Nat) {t1 t : Nat} {db : Db}
    (hdead : ∀ e ∈ db.cache, e.business_id = bid → e.cache_key = k → e.expires_at ≤ t1)
    (h1 : t1 ≤ t) (h2 : t < t1 + svc.cache_duration_minutes) :
    get_from_cache bid k t (cache_recommendations svc bid k ids t1 db) =
      (some ids,
       { data := db.data,
         cache := pruneOld bid db.cache ++
           [{ newCacheEntry svc bid k ids t1 with last_accessed := t }] }) := by
  have hfail : ∀ x ∈ pruneOld bid db.cache, liveEntryFor bid k t x = false := by
    intro x hx
    exact liveEntryFor_false_of_dead (hdead x (pruneOld_subset hx)) h1
  have hlive := newCacheEntry_live svc bid k ids h2
  unfold get_from_cache cache_recommendations
  simp only [find?_append_left_none hfail, List.find?, hlive,
    updateFirst_append_left hfail, updateFirst]
  simp [newCacheEntry]

lemma get_recommendations_hit {env : SqlEnv} {svc : RecommendationService} {bid : Nat}
    {db : Db} {now : Nat} {sq : Option String} {f : Filters} {off lim : Nat}
    {c : Nat} {cs : List Nat} {db' : Db}
    (h : get_from_cache bid (create_cache_key env bid sq f) now db = (some (c :: cs), db')) :
    get_recommendations env svc bid db now sq f off lim =
      (get_creators_by_ids (((c :: cs).drop off).take lim) db'.data, db') := by
  simp only [get_recommendations, h]

lemma get_recommendations_not_hit {env : SqlEnv} {svc : RecommendationService} {bid : Nat}
    {db : Db} {now : Nat} {sq : Option String} {f : Filters} {off lim : Nat}
    {o : Option (List Nat)} {db' : Db}
    (h : get_from_cache bid (create_cache_key env bid sq f) now db = (o, db'))
    (ho : o = none ∨ o = some []) :
    get_recommendations env svc bid db now sq f off lim =
      (get_creators_by_ids
         (((generate_recommendations env bid db'.data sq f).drop off).take lim)
         (cache_recommendations svc bid (create_cache_key env bid sq f)
           (generate_recommendations env bid db'.data sq f) now db').data,
       cache_recommendations svc bid (create_cache_key env bid sq f)
         (generate_recommendations env bid db'.data sq f) now db') := by
  rcases ho with ho | ho <;> subst ho <;> simp only [get_recommendations, h]

lemma cache_recommendations_data (svc : RecommendationService) (bid : Nat) (k : String)
    (ids : List Nat) (now : Nat) (db : Db) :
    (cache_recommendations svc bid k ids now db).data = db.data := rfl

lemma mem_cache_recommendations {svc : RecommendationService} {bid : Nat} {k : String}
    {ids : List Nat} {now : Nat} {db : Db} {x : RecommendationCache}
    (hx : x ∈ (cache_recommendations svc bid k ids now db).cache) :
    x ∈ db.cache ∨ x = newCacheEntry svc bid k ids now := by
  simp only [cache_recommendations] at hx
  rcases List.mem_append.mp hx with hx | hx
  · exact Or.inl (pruneOld_subset hx)
  · rcases List.mem_cons.mp hx with hx | hx
    · exact Or.inr hx
    · simp at hx

lemma get_from_cache_fst (bid : Nat) (k : String) (now : Nat) (db : Db) :
    (get_from_cache bid k now db).1 =
      (db.cache.find? (liveEntryFor bid k now)).map (fun e => e.creator_ids) := by
  unfold get_from_cache
  rcases h : db.cache.find? (liveEntryFor bid k now) with _ | e <;> simp [h]

lemma get_from_cache_cache_mem {bid : Nat} {k : String} {now : Nat} {db : Db}
    {x : RecommendationCache} (hx : x ∈ (get_from_cache bid k now db).2.cache) :
    x ∈ db.cache ∨ ∃ y, y ∈ db.cache ∧ x = { y with last_accessed := now } := by
  unfold get_from_cache at hx
  rcases h : db.cache.find? (liveEntryFor bid k now) with _ | e <;> rw [h] at hx
  · exact Or.inl hx
  · exact mem_updateFirst hx

/-- The invariant driving the determinism and pagination claims: the data
tables are fixed at `d0` and every cache entry of the pair
`(bid, fingerprint)` is either already expired at `t1` or stores exactly the
ordering a fresh generation over `d0` would produce.  Any
`get_recommendations` call at a time `≥ t1` then returns the `[offset,
offset+limit)` slice of that one master ordering and preserves the
invariant. -/
lemma get_recommendations_master (env : SqlEnv) (svc : RecommendationService) (bid : Nat)
    (sq : Option String) (f : Filters) (d0 : DbData) (t1 : Nat) (db : Db)
    (t off lim : Nat)
    (hdata : db.data = d0)
    (hinv : ∀ e ∈ db.cache, e.business_id = bid →
      e.cache_key = create_cache_key env bid sq f →
      e.expires_at ≤ t1 ∨ e.creator_ids = generate_recommendations env bid d0 sq f)
    (ht : t1 ≤ t) :
    (get_recommendations env svc bid db t sq f off lim).1 =
      get_creators_by_ids
        (((generate_recommendations env bid d0 sq f).drop off).take lim) d0 ∧
    (get_recommendations env svc bid db t sq f off lim).2.data = d0 ∧
    ∀ e ∈ (get_recommendations env svc bid db t sq f off lim).2.cache,
      e.business_id = bid → e.cache_key = create_cache_key env bid sq f →
      e.expires_at ≤ t1 ∨ e.creator_ids = generate_recommendations env bid d0 sq f := by
  rcases hfind : db.cache.find? (liveEntryFor bid (create_cache_key env bid sq f) t)
    with _ | e
  · -- no live entry at all: the miss path regenerates and writes back
    have hmiss : get_from_cache bid (create_cache_key env bid sq f) t db = (none, db) := by
      unfold get_from_cache
      rw [hfind]
    rw [get_recommendations_not_hit hmiss (Or.inl rfl)]
    refine ⟨?_, ?_, ?_⟩
    · dsimp only
      rw [cache_recommendations_data, hdata]
    · dsimp only
      rw [cache_recommendations_data, hdata]
    · dsimp only
      intro x hx hxb hxk
      rcases mem_cache_recommendations hx with hx | hx
      · exact hinv x hx hxb hxk
      · subst hx
        right
        show generate_recommendations env bid db.data sq f = _
        rw [hdata]
  · -- a live entry exists; by the invariant it stores the master ordering
    have hp := List.find?_some hfind
    have hmem := List.mem_of_find?_eq_some hfind
    rcases liveEntryFor_eq_true_iff.mp hp with ⟨hb, hk, hlt⟩
    have hids : e.creator_ids = generate_recommendations env bid d0 sq f := by
      rcases hinv e hmem hb hk with hdead | hids
      · exact absurd hlt (not_lt.mpr (le_trans hdead ht))
      · exact hids
    rcases hq : get_from_cache bid (create_cache_key env bid sq f) t db with ⟨o, db'⟩
    have ho : o = some e.creator_ids := by
      have h1 := get_from_cache_fst bid (create_cache_key env bid sq f) t db
      rw [hq, hfind] at h1
      simpa using h1
    have hdata' : db'.data = d0 := by
      have h1 := get_from_cache_data bid (create_cache_key env bid sq f) t db
      rw [hq] at h1
      rw [h1, hdata]
    have hmem' : ∀ x ∈ db'.cache, x.business_id = bid →
        x.cache_key = create_cache_key env bid sq f →
        x.expires_at ≤ t1 ∨ x.creator_ids = generate_recommendations env bid d0 sq f := by
      intro x hx hxb hxk
      have hx2 : x ∈ (get_from_cache bid (create_cache_key env bid sq f) t db).2.cache := by
        rw [hq]
        exact hx
      rcases get_from_cache_cache_mem hx2 with hx' | ⟨y, hy, hxy⟩
      · exact hinv x hx' hxb hxk
      · subst hxy
        exact hinv y hy hxb hxk
    rcases hgen : generate_recommendations env bid d0 sq f with _ | ⟨c, cs⟩
    · -- the stored master ordering is empty: a falsy hit, the miss path reruns
      rw [hgen] at hids
      rw [hids] at ho
      subst ho
      rw [hgen] at hmem'
      rw [get_recommendations_not_hit hq (Or.inr rfl)]
      refine ⟨?_, ?_, ?_⟩
      · dsimp only
        rw [cache_recommendations_data, hdata', hgen]
      · dsimp only
        rw [cache_recommendations_data, hdata']
      · dsimp only
        intro x hx hxb hxk
        rcases mem_cache_recommendations hx with hx | hx
        · exact hmem' x hx hxb hxk
        · subst hx
          right
          show generate_recommendations env bid db'.data sq f = _
          rw [hdata', hgen]
    · -- non-empty master ordering: a genuine cache hit, served as stored
      rw [hgen] at hids
      rw [hids] at ho
      subst ho
      rw [hgen] at hmem'
      rw [get_recommendations_hit hq]
      refine ⟨?_, hdata', ?_⟩
      · dsimp only
        rw [hdata']
      · dsimp only
        intro x hx hxb hxk
        exact hmem' x hx hxb hxk

/-! ### Further helper lemmas -/

lemma sortFilterKeys_eq_of_perm {f1 f2 : Filters} (hperm : f1.Perm f2)
    (hnodup : (f1.map Prod.fst).Nodup) :
    sortFilterKeys f1 = sortFilterKeys f2 := by
  haveI htot : IsTotal (String × FilterValue) (fun a b => a.1 ≤ b.1) :=
    ⟨fun a b => le_total a.1 b.1⟩
  haveI htrans : IsTrans (String × FilterValue) (fun a b => a.1 ≤ b.1) :=
    ⟨fun a b c hab hbc => le_trans hab hbc⟩
  have h1 : (sortFilterKeys f1).Perm f1 := List.perm_insertionSort _ _
  have h2 : (sortFilterKeys f2).Perm f2 := List.perm_insertionSort _ _
  have s1 : List.Sorted (fun a b : String × FilterValue => a.1 ≤ b.1) (sortFilterKeys f1) :=
    List.sorted_insertionSort _ _
  have s2 : List.Sorted (fun a b : String × FilterValue => a.1 ≤ b.1) (sortFilterKeys f2) :=
    List.sorted_insertionSort _ _
  have hnodup2 : (f2.map Prod.fst).Nodup := (hperm.map Prod.fst).nodup hnodup
  have hn1 : ((sortFilterKeys f1).map Prod.fst).Nodup :=
    ((h1.map Prod.fst).symm).nodup hnodup
  have hn2 : ((sortFilterKeys f2).map Prod.fst).Nodup :=
    ((h2.map Prod.fst).symm).nodup hnodup2
  have st1 : List.Sorted (fun a b : String × FilterValue => a.1 < b.1) (sortFilterKeys f1) :=
    (s1.and ((List.pairwise_map).mp hn1)).imp (fun h => lt_of_le_of_ne h.1 h.2)
  have st2 : List.Sorted (fun a b : String × FilterValue => a.1 < b.1) (sortFilterKeys f2) :=
    (s2.and ((List.pairwise_map).mp hn2)).imp (fun h => lt_of_le_of_ne h.1 h.2)
  haveI : IsAntisymm (String × FilterValue) (fun a b => a.1 < b.1) :=
    ⟨fun a b hab hba => absurd hba (not_lt.mpr (le_of_lt hab))⟩
  exact List.eq_of_perm_of_sorted (h1.trans (hperm.trans h2.symm)) st1 st2

lemma cacheString_ne_of_json_length {sq : Option String} {f1 f2 : Filters}
    (h : (String.intercalate ", "
        ((sortFilterKeys f1).map (fun p => jsonString p.1 ++ ": " ++ p.2.toJson))).length ≠
      (String.intercalate ", "
        ((sortFilterKeys f2).map (fun p => jsonString p.1 ++ ": " ++ p.2.toJson))).length) :
    cacheString sq f1 ≠ cacheString sq f2 := by
  intro he
  refine h ?_
  have hl := congrArg String.length he
  simp only [cacheString, String.length_append] at hl
  omega

lemma apply_filters_min_zero (q : CreatorQuery) :
    apply_filters q [("min_followers", FilterValue.int 0)] = q := rfl

lemma apply_filters_max_zero (q : CreatorQuery) :
    apply_filters q [("max_followers", FilterValue.int 0)] = q := rfl

lemma apply_filters_eng_zero (q : CreatorQuery) :
    apply_filters q [("engagement_rate", FilterValue.num 0)] = q := rfl

lemma apply_filters_niches_nil (q : CreatorQuery) :
    apply_filters q [("niches", FilterValue.intList [])] = q := rfl

lemma buildQuery_min_zero (rel : List Nat) (sq : Option String) :
    buildQuery rel sq [("min_followers", FilterValue.int 0)] = buildQuery rel sq [] := by
  simp [buildQuery, apply_filters_min_zero]

lemma buildQuery_max_zero (rel : List Nat) (sq : Option String) :
    buildQuery rel sq [("max_followers", FilterValue.int 0)] = buildQuery rel sq [] := by
  simp [buildQuery, apply_filters_max_zero]

lemma buildQuery_eng_zero (rel : List Nat) (sq : Option String) :
    buildQuery rel sq [("engagement_rate", FilterValue.num 0)] = buildQuery rel sq [] := by
  simp [buildQuery, apply_filters_eng_zero]

lemma buildQuery_niches_nil (rel : List Nat) (sq : Option String) :
    buildQuery rel sq [("niches", FilterValue.intList [])] = buildQuery rel sq [] := by
  simp [buildQuery, apply_filters_niches_nil]

lemma generate_eq_partition (env : SqlEnv) (business_id : Nat) (d : DbData)
    (sq : Option String) (f : Filters) :
    generate_recommendations env business_id d sq f =
      (scored_creator_ids env business_id d sq f).filter
        (fun i => !((viewed_creator_ids business_id d).contains i)) ++
      (scored_creator_ids env business_id d sq f).filter
        (fun i => (viewed_creator_ids business_id d).contains i) := by
  unfold generate_recommendations scored_creator_ids
  rcases h : d.businesses.find? (fun b => b.id == business_id) with _ | business <;> rw [h]
  · simp
  · dsimp only
    cases hie : business.industries.isEmpty <;> simp

/-! ### Claim theorems -/

/-- C7: `mark_creator_viewed` is idempotent — a second (or any later) call for
the same `(business, creator)` pair leaves the store unchanged, and starting
from a state with no interaction for the pair, two calls leave exactly one
interaction row for it. -/
theorem mark_viewed_idempotent (business_id creator_id now1 now2 : Nat) (db : Db) :
    mark_creator_viewed business_id creator_id now2
        (mark_creator_viewed business_id creator_id now1 db) =
      mark_creator_viewed business_id creator_id now1 db ∧
    ((db.data.interactions.filter (fun i =>
        i.business_id == business_id && i.creator_id == creator_id)).length = 0 →
      ((mark_creator_viewed business_id creator_id now2
            (mark_creator_viewed business_id creator_id now1 db)).data.interactions.filter
          (fun i => i.business_id == business_id && i.creator_id == creator_id)).length = 1) := by
  rcases hfind : db.data.interactions.find?
      (fun i => i.business_id == business_id && i.creator_id == creator_id) with _ | x
  · have happ : (db.data.interactions ++
        [({ business_id := business_id, creator_id := creator_id,
            interaction_type := "viewed", viewed_at := now1 } : BusinessCreatorInteraction)]).find?
          (fun i => i.business_id == business_id && i.creator_id == creator_id) =
        some ({ business_id := business_id, creator_id := creator_id,
                interaction_type := "viewed", viewed_at := now1 } : BusinessCreatorInteraction) := by
      rw [List.find?_append, hfind]
      simp [List.find?]
    constructor
    · simp only [mark_creator_viewed, hfind]
      rw [happ]
    · intro hzero
      have hl : db.data.interactions.filter
          (fun i => i.business_id == business_id && i.creator_id == creator_id) = [] :=
        List.length_eq_zero.mp hzero
      simp only [mark_creator_viewed, hfind]
      rw [happ]
      dsimp only
      rw [List.filter_append, hl]
      simp [List.filter]
  · have h1 : mark_creator_viewed business_id creator_id now1 db = db := by
      simp only [mark_creator_viewed, hfind]
    rw [h1]
    constructor
    · simp only [mark_creator_viewed, hfind]
    · intro hzero
      exfalso
      have hx := List.find?_some hfind
      have hmem := List.mem_of_find?_eq_some hfind
      have hin : x ∈ db.data.interactions.filter
          (fun i => i.business_id == business_id && i.creator_id == creator_id) :=
        List.mem_filter.mpr ⟨hmem, hx⟩
      rw [List.length_eq_zero.mp hzero] at hin
      simp at hin

/-- Witness for C7 at a concrete store with no interactions. -/
theorem mark_viewed_idempotent_witness :
    ((({ data := noIndustryData, cache := [] } : Db).data.interactions.filter
        (fun i => i.business_id == 1 && i.creator_id == 2)).length = 0) ∧
    mark_creator_viewed 1 2 7 (mark_creator_viewed 1 2 3 { data := noIndustryData, cache := [] }) =
      mark_creator_viewed 1 2 3 { data := noIndustryData, cache := [] } ∧
    ((mark_creator_viewed 1 2 7
          (mark_creator_viewed 1 2 3 { data := noIndustryData, cache := [] })).data.interactions.filter
        (fun i => i.business_id == 1 && i.creator_id == 2)).length = 1 :=
  ⟨by decide, (mark_viewed_idempotent 1 2 3 7 { data := noIndustryData, cache := [] }).1,
   (mark_viewed_idempotent 1 2 3 7 { data := noIndustryData, cache := [] }).2 (by decide)⟩

/-- C4 (divergence): with two live entries for the same `(business_id,
cache_key)` — exactly the duplicate situation the spec tolerates — the read
path returns the list stored in the *first* row of the unordered SELECT, not
the one of the entry with the latest `created_at`: the SELECT in
`_get_from_cache` carries no `ORDER BY created_at DESC` and `scalar()` takes
the first row. -/
theorem cache_read_ignores_created_at :
    ((duplicateEntryDb.cache.filter (liveEntryFor 1 "k" 10)).map
        (fun e => (e.created_at, e.creator_ids))) = [(0, [1]), (5, [2])] ∧
    (get_from_cache 1 "k" 10 duplicateEntryDb).1 = some [1] ∧
    some [1] ≠ some ([2] : List Nat) := by decide

/-- C5: the cache fingerprint does not depend on the insertion order of the
filter dict — for any two filter dicts holding the same key/value pairs (keys
distinct) in any orders, `_create_cache_key` produces the same key, whatever
the hash function is. -/
theorem cache_key_order_independent (env : SqlEnv) (business_id : Nat)
    (search_query : Option String) (f1 f2 : Filters)
    (hperm : f1.Perm f2) (hnodup : (f1.map Prod.fst).Nodup) :
    create_cache_key env business_id search_query f1 =
      create_cache_key env business_id search_query f2 := by
  unfold create_cache_key cacheString
  rw [sortFilterKeys_eq_of_perm hperm hnodup]

/-- Witness for C5 on the spec's example pair of filter dicts. -/
theorem cache_key_order_independent_witness :
    ([(("min_followers" : String), FilterValue.int 100),
        ("engagement_rate", FilterValue.num 2)].Perm
      [(("engagement_rate" : String), FilterValue.num 2),
        ("min_followers", FilterValue.int 100)]) ∧
    create_cache_key testEnv 1 none
        [("min_followers", FilterValue.int 100), ("engagement_rate", FilterValue.num 2)] =
      create_cache_key testEnv 1 none
        [("engagement_rate", FilterValue.num 2), ("min_followers", FilterValue.int 100)] :=
  ⟨by decide,
   cache_key_order_independent testEnv 1 none
     [("min_followers", FilterValue.int 100), ("engagement_rate", FilterValue.num 2)]
     [("engagement_rate", FilterValue.num 2), ("min_followers", FilterValue.int 100)]
     (by decide) (by decide)⟩

/-- C10: a filter key present with a falsy value (`0`, `0.0`, `[]`) is
silently not applied — `_apply_filters` adds a predicate only for truthy
values, so the generated ordering equals the one with the filter absent —
even though the fingerprinted strings (and hence the cache keys) differ. -/
theorem falsy_filters_ignored (env : SqlEnv) (business_id : Nat) (d : DbData)
    (search_query : Option String) :
    (generate_recommendations env business_id d search_query
        [("min_followers", FilterValue.int 0)] =
      generate_recommendations env business_id d search_query []) ∧
    (generate_recommendations env business_id d search_query
        [("max_followers", FilterValue.int 0)] =
      generate_recommendations env business_id d search_query []) ∧
    (generate_recommendations env business_id d search_query
        [("engagement_rate", FilterValue.num 0)] =
      generate_recommendations env business_id d search_query []) ∧
    (generate_recommendations env business_id d search_query
        [("niches", FilterValue.intList [])] =
      generate_recommendations env business_id d search_query []) ∧
    cacheString search_query [("min_followers", FilterValue.int 0)] ≠
      cacheString search_query [] ∧
    cacheString search_query [("max_followers", FilterValue.int 0)] ≠
      cacheString search_query [] ∧
    cacheString search_query [("engagement_rate", FilterValue.num 0)] ≠
      cacheString search_query [] ∧
    cacheString search_query [("niches", FilterValue.intList [])] ≠
      cacheString search_query [] := by
  refine ⟨?_, ?_, ?_, ?_,
    cacheString_ne_of_json_length (by decide), cacheString_ne_of_json_length (by decide),
    cacheString_ne_of_json_length (by decide), cacheString_ne_of_json_length (by decide)⟩
  all_goals unfold generate_recommendations
  · simp only [buildQuery_min_zero]
  · simp only [buildQuery_max_zero]
  · simp only [buildQuery_eng_zero]
  · simp only [buildQuery_niches_nil]

/-- Witness for C10 at a concrete environment and store. -/
theorem falsy_filters_ignored_witness :
    (generate_recommendations testEnv 1 twoCreatorData none
        [("min_followers", FilterValue.int 0)] =
      generate_recommendations testEnv 1 twoCreatorData none []) ∧
    (generate_recommendations testEnv 1 twoCreatorData none
        [("max_followers", FilterValue.int 0)] =
      generate_recommendations testEnv 1 twoCreatorData none []) ∧
    (generate_recommendations testEnv 1 twoCreatorData none
        [("engagement_rate", FilterValue.num 0)] =
      generate_recommendations testEnv 1 twoCreatorData none []) ∧
    (generate_recommendations testEnv 1 twoCreatorData none
        [("niches", FilterValue.intList [])] =
      generate_recommendations testEnv 1 twoCreatorData none []) ∧
    cacheString none [("min_followers", FilterValue.int 0)] ≠ cacheString none [] ∧
    cacheString none [("max_followers", FilterValue.int 0)] ≠ cacheString none [] ∧
    cacheString none [("engagement_rate", FilterValue.num 0)] ≠ cacheString none [] ∧
    cacheString none [("niches", FilterValue.intList [])] ≠ cacheString none [] :=
  falsy_filters_ignored testEnv 1 twoCreatorData none

/-- C2: every fresh generation is the stable partition of the scored ordering
into unviewed creators followed by viewed ones, so a viewed creator always
ranks after every unviewed one that matched the candidate query, regardless
of niche-match counts. -/
theorem viewed_demotion (env : SqlEnv) (business_id : Nat) (d : DbData)
    (search_query : Option String) (filters : Filters) (A B : Nat)
    (hA : A ∈ generate_recommendations env business_id d search_query filters)
    (hB : B ∈ generate_recommendations env business_id d search_query filters)
    (hAv : A ∉ viewed_creator_ids business_id d)
    (hBv : B ∈ viewed_creator_ids business_id d) :
    generate_recommendations env business_id d search_query filters =
      (scored_creator_ids env business_id d search_query filters).filter
        (fun i => !((viewed_creator_ids business_id d).contains i)) ++
      (scored_creator_ids env business_id d search_query filters).filter
        (fun i => (viewed_creator_ids business_id d).contains i) ∧
    List.indexOf A (generate_recommendations env business_id d search_query filters) <
      List.indexOf B (generate_recommendations env business_id d search_query filters) := by
  have hpart := generate_eq_partition env business_id d search_query filters
  refine ⟨hpart, ?_⟩
  rw [hpart] at hA hB ⊢
  have hAnotl2 : A ∉ (scored_creator_ids env business_id d search_query filters).filter
      (fun i => (viewed_creator_ids business_id d).contains i) := by
    intro hx
    exact hAv (List.elem_iff.mp (List.mem_filter.mp hx).2)
  have hAl1 : A ∈ (scored_creator_ids env business_id d search_query filters).filter
      (fun i => !((viewed_creator_ids business_id d).contains i)) := by
    rcases List.mem_append.mp hA with h | h
    · exact h
    · exact absurd h hAnotl2
  have hBnotl1 : B ∉ (scored_creator_ids env business_id d search_query filters).filter
      (fun i => !((viewed_creator_ids business_id d).contains i)) := by
    intro hx
    have hc := (List.mem_filter.mp hx).2
    simp only [Bool.not_eq_true'] at hc
    exact absurd hBv (by simpa [List.elem_iff] using hc)
  calc List.indexOf A
        ((scored_creator_ids env business_id d search_query filters).filter
          (fun i => !((viewed_creator_ids business_id d).contains i)) ++
         (scored_creator_ids env business_id d search_query filters).filter
          (fun i => (viewed_creator_ids business_id d).contains i))
      = List.indexOf A ((scored_creator_ids env business_id d search_query filters).filter
          (fun i => !((viewed_creator_ids business_id d).contains i))) :=
        List.indexOf_append_of_mem hAl1
    _ < ((scored_creator_ids env business_id d search_query filters).filter
          (fun i => !((viewed_creator_ids business_id d).contains i))).length :=
        List.indexOf_lt_length.mpr hAl1
    _ ≤ ((scored_creator_ids env business_id d search_query filters).filter
          (fun i => !((viewed_creator_ids business_id d).contains i))).length +
        List.indexOf B ((scored_creator_ids env business_id d search_query filters).filter
          (fun i => (viewed_creator_ids business_id d).contains i)) :=
        Nat.le_add_right _ _
    _ = List.indexOf B
        ((scored_creator_ids env business_id d search_query filters).filter
          (fun i => !((viewed_creator_ids business_id d).contains i)) ++
         (scored_creator_ids env business_id d search_query filters).filter
          (fun i => (viewed_creator_ids business_id d).contains i)) :=
        (List.indexOf_append_of_not_mem hBnotl1).symm

/-- Witness for C2: creator 2 (three niche matches, viewed) ranks after
creator 1 (two matches, unviewed). -/
theorem viewed_demotion_witness :
    (1 ∈ generate_recommendations testEnv 1 twoCreatorData none []) ∧
    (2 ∈ generate_recommendations testEnv 1 twoCreatorData none []) ∧
    (1 ∉ viewed_creator_ids 1 twoCreatorData) ∧
    (2 ∈ viewed_creator_ids 1 twoCreatorData) ∧
    List.indexOf 1 (generate_recommendations testEnv 1 twoCreatorData none []) <
      List.indexOf 2 (generate_recommendations testEnv 1 twoCreatorData none []) :=
  ⟨by decide, by decide, by decide, by decide,
   (viewed_demotion testEnv 1 twoCreatorData none [] 1 2
     (by decide) (by decide) (by decide) (by decide)).2⟩

lemma length_filter_not_contains_drop_le {l : List RecommendationCache}
    (S : List RecommendationCache) (h : l.Perm S) :
    (l.filter (fun e => !((S.drop 10).contains e))).length ≤ 10 := by
  set q := fun (e : RecommendationCache) => !((S.drop 10).contains e) with hq
  rw [(h.filter q).length_eq]
  have hsplit : S.filter q = (S.take 10).filter q ++ (S.drop 10).filter q := by
    conv_lhs => rw [← List.take_append_drop 10 S]
    rw [List.filter_append]
  have hnil : (S.drop 10).filter q = [] :=
    List.filter_eq_nil_iff.mpr (fun a ha => by simp [hq, ha])
  rw [hsplit, hnil, List.append_nil]
  exact le_trans (List.length_filter_le _ _) (List.length_take_le _ _)

/-- C3 (amended): one cache write leaves at most 11 entries of the business —
the prune keeps the 10 most recently created *pre-existing* entries and only
then inserts the new one. -/
theorem cache_write_keeps_at_most_eleven (svc : RecommendationService) (business_id : Nat)
    (cache_key : String) (creator_ids : List Nat) (now : Nat) (db : Db) :
    ((cache_recommendations svc business_id cache_key creator_ids now db).cache.filter
        (fun e => e.business_id == business_id)).length ≤ 11 := by
  have h2 : ((List.filter (fun e => e.business_id == business_id)
      [newCacheEntry svc business_id cache_key creator_ids now])).length ≤ 1 :=
    le_trans (List.length_filter_le _ _) (by simp)
  have h1 : ((pruneOld business_id db.cache).filter
      (fun e => e.business_id == business_id)).length ≤ 10 := by
    simp only [pruneOld]
    rw [List.filter_comm]
    exact length_filter_not_contains_drop_le _ (List.perm_insertionSort _ _).symm
  calc ((cache_recommendations svc business_id cache_key creator_ids now db).cache.filter
        (fun e => e.business_id == business_id)).length
      = ((pruneOld business_id db.cache).filter
          (fun e => e.business_id == business_id)).length +
        ((List.filter (fun e => e.business_id == business_id)
          [newCacheEntry svc business_id cache_key creator_ids now])).length := by
        simp only [cache_recommendations, List.filter_append, List.length_append]
    _ ≤ 10 + 1 := Nat.add_le_add h1 h2
    _ ≤ 11 := by norm_num

/-- C3 as stated fails on the code: fifteen `get_recommendations` calls with
fifteen distinct fingerprints leave *eleven* live cache entries for the
business, not at most ten — the prune runs before the insert. -/
theorem pruning_bound_counterexample :
    ((List.range 15).map
        (fun i => create_cache_key testEnv 1 (some ("q" ++ toString i)) [])).Nodup ∧
    (fifteenWritesRun.cache.filter
        (fun e => e.business_id == 1 && decide ((14 : Nat) < e.expires_at))).length = 11 ∧
    ¬ ((fifteenWritesRun.cache.filter
        (fun e => e.business_id == 1 && decide ((14 : Nat) < e.expires_at))).length ≤ 10) := by
  refine ⟨by decide, by decide, by decide⟩

/-- C8 (divergence): a `niches` token that `int()` rejects does fail fast —
the recommendation service is never invoked and the store is returned
untouched — but the `HTTPException(400)` raised inside the `try:` block is
caught by the handler's `except Exception` catch-all and surfaced to the
caller as a 500 "Internal server error", not as the claimed client
validation error. -/
theorem malformed_niches_surfaced_as_500 :
    parseNicheIds? "1,a" = none ∧
    get_creator_recommendations_try testEnv recommendation_service 1
        { data := twoCreatorData, cache := [] } 0 none none none none none
        (some "1,a") none 0 5 =
      (Except.error 400, { data := twoCreatorData, cache := [] }) ∧
    get_creator_recommendations testEnv recommendation_service 1
        { data := twoCreatorData, cache := [] } 0 none none none none none
        (some "1,a") none 0 5 =
      (Except.error 500, { data := twoCreatorData, cache := [] }) ∧
    (500 : Nat) ≠ 400 := by decide

/-- C1: with no live entry for the fingerprint beforehand, two consecutive
`get_recommendations` calls (no intervening writes, same data) within the
30-minute TTL return the same page: the first call caches the fresh ordering
and the second is answered from / consistently with that entry. -/
theorem cache_determinism (env : SqlEnv) (business_id : Nat) (db : Db)
    (search_query : Option String) (filters : Filters) (offset limit t1 t2 : Nat)
    (hdead : ∀ e ∈ db.cache, e.business_id = business_id →
      e.cache_key = create_cache_key env business_id search_query filters →
      e.expires_at ≤ t1)
    (h12 : t1 ≤ t2) (hTTL : t2 < t1 + 30) :
    (get_recommendations env recommendation_service business_id
        (get_recommendations env recommendation_service business_id db t1
          search_query filters offset limit).2
        t2 search_query filters offset limit).1 =
      (get_recommendations env recommendation_service business_id db t1
        search_query filters offset limit).1 := by
  have h1 := get_recommendations_master env recommendation_service business_id search_query
    filters db.data t1 db t1 offset limit rfl
    (fun e he hb hk => Or.inl (hdead e he hb hk)) le_rfl
  have h2 := get_recommendations_master env recommendation_service business_id search_query
    filters db.data t1
    (get_recommendations env recommendation_service business_id db t1
      search_query filters offset limit).2
    t2 offset limit h1.2.1 h1.2.2 h12
  rw [h2.1, h1.1]

/-- Witness for C1: two calls at minutes 0 and 5 on a fresh store. -/
theorem cache_determinism_witness :
    ((0 : Nat) ≤ 5) ∧ ((5 : Nat) < 0 + 30) ∧
    (get_recommendations testEnv recommendation_service 1
        (get_recommendations testEnv recommendation_service 1
          { data := twoCreatorData, cache := [] } 0 none [] 0 5).2
        5 none [] 0 5).1 =
      (get_recommendations testEnv recommendation_service 1
        { data := twoCreatorData, cache := [] } 0 none [] 0 5).1 :=
  ⟨by decide, by decide,
   cache_determinism testEnv 1 { data := twoCreatorData, cache := [] } none [] 0 5 0 5
     (by simp) (by decide) (by decide)⟩

lemma get_creators_by_ids_eq_filterMap (ids : List Nat) (d : DbData) :
    get_creators_by_ids ids d =
      ids.filterMap (fun cid =>
        ((d.creators.filter (fun c => c.id == cid)).getLast?).map (summarize d)) := by
  cases ids with
  | nil => rfl
  | cons a l => rfl

/-- C6: for the same fingerprint, the pages `(offset 0, limit 10)` and
`(offset 10, limit 10)` of two consecutive calls concatenate to exactly the
`(offset 0, limit 20)` page of a third call within the TTL — all three are
slices of one stable full ordering, with no duplicated and no skipped
creators. -/
theorem pagination_consistency (env : SqlEnv) (business_id : Nat) (db : Db)
    (search_query : Option String) (filters : Filters) (t1 t2 t3 : Nat)
    (hdead : ∀ e ∈ db.cache, e.business_id = business_id →
      e.cache_key = create_cache_key env business_id search_query filters →
      e.expires_at ≤ t1)
    (h12 : t1 ≤ t2) (h23 : t2 ≤ t3) (hTTL : t3 < t1 + 30) :
    (get_recommendations env recommendation_service business_id db t1
        search_query filters 0 10).1 ++
      (get_recommendations env recommendation_service business_id
        (get_recommendations env recommendation_service business_id db t1
          search_query filters 0 10).2
        t2 search_query filters 10 10).1 =
      (get_recommendations env recommendation_service business_id
        (get_recommendations env recommendation_service business_id
          (get_recommendations env recommendation_service business_id db t1
            search_query filters 0 10).2
          t2 search_query filters 10 10).2
        t3 search_query filters 0 20).1 := by
  have h1 := get_recommendations_master env recommendation_service business_id search_query
    filters db.data t1 db t1 0 10 rfl
    (fun e he hb hk => Or.inl (hdead e he hb hk)) le_rfl
  have h2 := get_recommendations_master env recommendation_service business_id search_query
    filters db.data t1
    (get_recommendations env recommendation_service business_id db t1
      search_query filters 0 10).2
    t2 10 10 h1.2.1 h1.2.2 h12
  have h3 := get_recommendations_master env recommendation_service business_id search_query
    filters db.data t1
    (get_recommendations env recommendation_service business_id
      (get_recommendations env recommendation_service business_id db t1
        search_query filters 0 10).2
      t2 search_query filters 10 10).2
    t3 0 20 h2.2.1 h2.2.2 (le_trans h12 h23)
  rw [h1.1, h2.1, h3.1, List.drop_zero,
    get_creators_by_ids_eq_filterMap, get_creators_by_ids_eq_filterMap,
    get_creators_by_ids_eq_filterMap, ← List.filterMap_append]
  congr 1
  rw [show (20 : Nat) = 10 + 10 from rfl, List.take_add]

/-- Witness for C6 at minutes 0, 1, 2 on a fresh store. -/
theorem pagination_consistency_witness :
    ((0 : Nat) ≤ 1) ∧ ((1 : Nat) ≤ 2) ∧ ((2 : Nat) < 0 + 30) ∧
    (get_recommendations testEnv recommendation_service 1
        { data := twoCreatorData, cache := [] } 0 none [] 0 10).1 ++
      (get_recommendations testEnv recommendation_service 1
        (get_recommendations testEnv recommendation_service 1
          { data := twoCreatorData, cache := [] } 0 none [] 0 10).2
        1 none [] 10 10).1 =
      (get_recommendations testEnv recommendation_service 1
        (get_recommendations testEnv recommendation_service 1
          (get_recommendations testEnv recommendation_service 1
            { data := twoCreatorData, cache := [] } 0 none [] 0 10).2
          1 none [] 10 10).2
        2 none [] 0 20).1 :=
  ⟨by decide, by decide, by decide,
   pagination_consistency testEnv 1 { data := twoCreatorData, cache := [] } none [] 0 1 2
     (by simp) (by decide) (by decide) (by decide)⟩

/-- C9: when the fresh generation is empty, the empty ordering is still
written to the cache, but `if cached_ids:` treats the stored `[]` as falsy, so
a later call for the same pair — although the stored entry is still live —
regenerates and writes yet another entry (with pruning) instead of serving the
cached empty result. -/
theorem empty_generation_recached (env : SqlEnv) (business_id : Nat) (db : Db)
    (search_query : Option String) (filters : Filters) (offset limit t1 t2 : Nat)
    (hgen : generate_recommendations env business_id db.data search_query filters = [])
    (hnone : ∀ e ∈ db.cache, ¬(e.business_id = business_id ∧
      e.cache_key = create_cache_key env business_id search_query filters))
    (hcount : (db.cache.filter (fun e => e.business_id == business_id)).length ≤ 9)
    (h12 : t1 ≤ t2) (hTTL : t2 < t1 + 30) :
    (get_recommendations env recommendation_service business_id db t1
        search_query filters offset limit).1 = [] ∧
    (((get_recommendations env recommendation_service business_id db t1
        search_query filters offset limit).2.cache.filter
        (fun e => e.business_id == business_id &&
          e.cache_key == create_cache_key env business_id search_query filters)).map
      (fun e => (e.created_at, e.creator_ids))) = [(t1, [])] ∧
    liveEntryFor business_id (create_cache_key env business_id search_query filters) t2
      (newCacheEntry recommendation_service business_id
        (create_cache_key env business_id search_query filters) [] t1) = true ∧
    (get_recommendations env recommendation_service business_id
        (get_recommendations env recommendation_service business_id db t1
          search_query filters offset limit).2
        t2 search_query filters offset limit).1 = [] ∧
    (((get_recommendations env recommendation_service business_id
        (get_recommendations env recommendation_service business_id db t1
          search_query filters offset limit).2
        t2 search_query filters offset limit).2.cache.filter
        (fun e => e.business_id == business_id &&
          e.cache_key == create_cache_key env business_id search_query filters)).map
      (fun e => (e.created_at, e.creator_ids))) = [(t1, []), (t2, [])] := by
  have hdead : ∀ e ∈ db.cache, e.business_id = business_id →
      e.cache_key = create_cache_key env business_id search_query filters →
      e.expires_at ≤ t1 :=
    fun e he hb hk => absurd ⟨hb, hk⟩ (hnone e he)
  have hmiss1 : get_from_cache business_id
      (create_cache_key env business_id search_query filters) t1 db = (none, db) :=
    get_from_cache_none (fun e he => liveEntryFor_false_of_dead (hdead e he) le_rfl)
  have hpair0 : db.cache.filter
      (fun e => e.business_id == business_id &&
        e.cache_key == create_cache_key env business_id search_query filters) = [] := by
    refine List.filter_eq_nil_iff.mpr (fun a ha hA => ?_)
    simp only [Bool.and_eq_true, beq_iff_eq] at hA
    exact hnone a ha hA
  have hprune1 : pruneOld business_id db.cache = db.cache :=
    pruneOld_eq_self (le_trans hcount (by norm_num))
  have hlive : liveEntryFor business_id
      (create_cache_key env business_id search_query filters) t2
      (newCacheEntry recommendation_service business_id
        (create_cache_key env business_id search_query filters) [] t1) = true :=
    newCacheEntry_live recommendation_service business_id
      (create_cache_key env business_id search_query filters) [] hTTL
  have hread : get_from_cache business_id
      (create_cache_key env business_id search_query filters) t2
      (cache_recommendations recommendation_service business_id
        (create_cache_key env business_id search_query filters) [] t1 db) =
      (some [],
       { data := db.data,
         cache := pruneOld business_id db.cache ++
           [{ newCacheEntry recommendation_service business_id
                (create_cache_key env business_id search_query filters) [] t1 with
              last_accessed := t2 }] }) :=
    get_from_cache_after_write recommendation_service [] hdead h12 hTTL
  have hcount2 : ((db.cache ++
      [({ newCacheEntry recommendation_service business_id
            (create_cache_key env business_id search_query filters) [] t1 with
          last_accessed := t2 } : RecommendationCache)]).filter
      (fun e => e.business_id == business_id)).length ≤ 10 := by
    rw [List.filter_append, List.length_append]
    have hone : (List.filter (fun e => e.business_id == business_id)
        [({ newCacheEntry recommendation_service business_id
              (create_cache_key env business_id search_query filters) [] t1 with
            last_accessed := t2 } : RecommendationCache)]).length ≤ 1 :=
      le_trans (List.length_filter_le _ _) (by simp)
    omega
  have hprune2 : pruneOld business_id (db.cache ++
      [({ newCacheEntry recommendation_service business_id
            (create_cache_key env business_id search_query filters) [] t1 with
          last_accessed := t2 } : RecommendationCache)]) =
      db.cache ++
      [({ newCacheEntry recommendation_service business_id
            (create_cache_key env business_id search_query filters) [] t1 with
          last_accessed := t2 } : RecommendationCache)] :=
    pruneOld_eq_self hcount2
  rw [get_recommendations_not_hit hmiss1 (Or.inl rfl)]
  dsimp only
  rw [hgen]
  rw [get_recommendations_not_hit hread (Or.inr rfl)]
  dsimp only
  rw [hgen]
  refine ⟨by simp [get_creators_by_ids], ?_, hlive, by simp [get_creators_by_ids], ?_⟩
  · simp only [cache_recommendations]
    rw [hprune1, List.filter_append, hpair0]
    simp [newCacheEntry]
  · simp only [cache_recommendations]
    rw [hprune1, hprune2, List.filter_append, List.filter_append, hpair0]
    simp [newCacheEntry]

/-- Witness for C9: a business with no industries, calls at minutes 0 and 1. -/
theorem empty_generation_recached_witness :
    generate_recommendations testEnv 1 noIndustryData none [] = [] ∧
    ((0 : Nat) ≤ 1) ∧ ((1 : Nat) < 0 + 30) ∧
    (get_recommendations testEnv recommendation_service 1
        { data := noIndustryData, cache := [] } 0 none [] 0 5).1 = [] ∧
    (((get_recommendations testEnv recommendation_service 1
        { data := noIndustryData, cache := [] } 0 none [] 0 5).2.cache.filter
        (fun e => e.business_id == 1 &&
          e.cache_key == create_cache_key testEnv 1 none [])).map
      (fun e => (e.created_at, e.creator_ids))) = [(0, [])] ∧
    (get_recommendations testEnv recommendation_service 1
        (get_recommendations testEnv recommendation_service 1
          { data := noIndustryData, cache := [] } 0 none [] 0 5).2
        1 none [] 0 5).1 = [] ∧
    (((get_recommendations testEnv recommendation_service 1
        (get_recommendations testEnv recommendation_service 1
          { data := noIndustryData, cache := [] } 0 none [] 0 5).2
        1 none [] 0 5).2.cache.filter
        (fun e => e.business_id == 1 &&
          e.cache_key == create_cache_key testEnv 1 none [])).map
      (fun e => (e.created_at, e.creator_ids))) = [(0, []), (1, [])] := by
  have h := empty_generation_recached testEnv 1 { data := noIndustryData, cache := [] }
    none [] 0 5 0 1 (by decide) (by simp) (by decide) (by decide) (by decide)
  exact ⟨by decide, by decide, by decide, h.1, h.2.1, h.2.2.2.1, h.2.2.2.2⟩

end Caskayd

